import Mathlib

/-!
# Verification of the openai-imagegen core against its specification

This file gives a shallow embedding of the two specified cores of the
repository — the sliding-window rate limiter
(`src/middleware/rate_limiter.py`) and the reference-image normalization
pipeline of the provider gateway (`src/services/openai_service.py`) — and
proves or refutes the frozen claims about them.

Modelling conventions:
* Python `time.time()` timestamps are rationals (`ℚ`); Python `int()`
  truncation toward zero is `pyInt`.
* The per-key `defaultdict(deque)` becomes a total function
  `String → List ℚ` defaulting to `[]`; deque front = list head.
* External effects (HTTP fetches, the OpenAI SDK calls, base64) are an
  explicit environment of pure functions returning `Except`; a raised
  Python exception is the `Except.error` carrying `str(e)`.
* The filesystem is the set of existing paths, threaded explicitly.
* PIL pixel arithmetic (`Image.paste` with an `L` mask) is embedded via
  PIL's fixed-point `MULDIV255`/`BLEND` macros from `Paste.c`.
-/

set_option maxRecDepth 4000

/-! ## Rate limiter (`src/middleware/rate_limiter.py`) -/

/-- Python `int()` applied to a rational: truncation toward zero. -/
def pyInt (q : ℚ) : ℤ := if 0 ≤ q then ⌊q⌋ else ⌈q⌉

/-- The part of a Starlette `Request` that `RateLimiterMiddleware.dispatch`
inspects: `request.url.path` and `request.client.host`. -/
structure Request where
  path : String
  clientIp : String
deriving DecidableEq

/-- State of `RateLimiterMiddleware`: the per-key timestamp records
(`self.requests`, a `defaultdict(deque)` read as: absent key = `[]`),
`self.limit` and `self.window`. -/
structure RLState where
  requests : String → List ℚ
  limit : ℕ
  window : ℚ

/-- Middleware state at startup: no keys recorded, `window = 60` seconds,
`limit = settings.RATE_LIMIT_PER_MINUTE`. -/
def initState (limit : ℕ) : RLState := ⟨fun _ => [], limit, 60⟩

/-- What `dispatch` returns to the client: either the wrapped app's
response (admission) or the 429 `JSONResponse` carrying `retry_after`. -/
inductive Response where
  | ok : Response
  | rateLimited (retryAfter : ℤ) : Response
deriving DecidableEq

/-- The pruning loop
`while self.requests[ip] and self.requests[ip][0] < current_time - self.window:
  self.requests[ip].popleft()` — a prefix trim of the record. -/
def pruneRecord (window t : ℚ) (rec : List ℚ) : List ℚ :=
  rec.dropWhile (fun ts => decide (ts < t - window))

/-- `RateLimiterMiddleware.dispatch` as a state transformer: health-check
bypass, prune, length check against the limit (rejection computes
`int(self.window - (current_time - self.requests[ip][0]))`), else append
`current_time` and admit. -/
def rlDispatch (st : RLState) (req : Request) (t : ℚ) : Response × RLState :=
  if req.path = "/health" then (Response.ok, st)
  else if st.limit ≤ (pruneRecord st.window t (st.requests req.clientIp)).length then
    (Response.rateLimited
        (pyInt (st.window - (t - (pruneRecord st.window t (st.requests req.clientIp)).headI))),
      { st with requests := fun k =>
          if k = req.clientIp then pruneRecord st.window t (st.requests req.clientIp)
          else st.requests k })
  else
    (Response.ok,
      { st with requests := fun k =>
          if k = req.clientIp then pruneRecord st.window t (st.requests req.clientIp) ++ [t]
          else st.requests k })

/-- A whole run of the middleware: successive `dispatch` calls on a list of
(request, current_time) events starting from the startup state. -/
def runChecks (limit : ℕ) (events : List (Request × ℚ)) : RLState :=
  events.foldl (fun st e => (rlDispatch st e.1 e.2).2) (initState limit)

/-- Timestamps seen by successive checks are non-decreasing (wall clock). -/
def chronological (events : List (Request × ℚ)) : Prop :=
  (events.map Prod.snd).Sorted (· ≤ ·)

/-- Well-formedness of the middleware state at time `t`: every per-key
record is sorted (append-ordered) and holds no timestamp beyond `t`. -/
def RecordsWF (st : RLState) (t : ℚ) : Prop :=
  ∀ k, (st.requests k).Sorted (· ≤ ·) ∧ ∀ ts ∈ st.requests k, ts ≤ t

/-! ## Image normalizer (`OpenAIImageService._process_image_for_openai`)

The pixel arithmetic of `background.paste(image, mask=alpha)` follows
PIL's `Paste.c`: with an 8-bit `L` mask, each output channel is
`BLEND(mask, in1, in2) = MULDIV255(in1, 255 - mask) + MULDIV255(in2, mask)`
where `MULDIV255(a, b) = (tmp = a*b + 128; ((tmp >> 8) + tmp) >> 8)`,
a fixed-point rounding of `a*b/255`. -/

/-- PIL `MULDIV255`: fixed-point `round(a*b/255)` (`>> 8` is `/ 256`). -/
def muldiv255 (a b : ℕ) : ℕ := ((a * b + 128) / 256 + (a * b + 128)) / 256

/-- PIL `BLEND(mask, in1, in2)`: `in1` weighted by `255 - mask` plus `in2`
weighted by `mask`. -/
def pilBlend (mask in1 in2 : ℕ) : ℕ := muldiv255 in1 (255 - mask) + muldiv255 in2 mask

/-- An 8-bit RGB color triple. -/
structure RGBColor where
  r : ℕ
  g : ℕ
  b : ℕ
deriving DecidableEq

/-- An `RGB`-mode PIL image: dimensions plus a pixel map. -/
structure RGBImage where
  width : ℕ
  height : ℕ
  px : ℕ → ℕ → RGBColor

/-- What `Image.open` can hand to `_process_image_for_openai`, keyed by
`image.mode`. For any mode other than `RGBA`/`LA`/`RGB` the code calls
`image.convert('RGB')`; that external conversion's result is carried in
the `otherMode` constructor. -/
inductive DecodedImage where
  | rgba (width height : ℕ) (px : ℕ → ℕ → RGBColor × ℕ)
  | la (width height : ℕ) (px : ℕ → ℕ → ℕ × ℕ)
  | rgb (img : RGBImage)
  | otherMode (convertedToRGB : RGBImage)

/-- One pixel of `background.paste(image, mask=image.split()[-1])` where
`background` is the all-white RGB canvas: each channel of the RGBA source
is blended against 255 with the pixel's alpha as mask. -/
def pasteOnWhite (p : RGBColor × ℕ) : RGBColor :=
  ⟨pilBlend p.2 255 p.1.r, pilBlend p.2 255 p.1.g, pilBlend p.2 255 p.1.b⟩

/-- The mode dispatch of `_process_image_for_openai` (lines 191-201):
`RGBA` is pasted onto the white canvas with the alpha channel as mask;
`LA` is pasted with *no* mask (`background.paste(image)`), which converts
the source to RGB — replicating luminance, discarding alpha — and covers
the whole canvas; `RGB` is passed through; anything else is
`image.convert('RGB')`. -/
def processDecoded : DecodedImage → RGBImage
  | DecodedImage.rgba w h px => ⟨w, h, fun x y => pasteOnWhite (px x y)⟩
  | DecodedImage.la w h px => ⟨w, h, fun x y => ⟨(px x y).1, (px x y).1, (px x y).1⟩⟩
  | DecodedImage.rgb img => img
  | DecodedImage.otherMode conv => conv

/-- The external image codec (PIL decode + PNG encode), abstracted: PIL's
PNG round-trip is deterministic and lossless, which claims about the
pipeline consume as an explicit hypothesis where needed. -/
structure PngCodec (Bytes : Type) where
  decode : Bytes → Option DecodedImage
  encodePNG : RGBImage → Bytes

/-- `_process_image_for_openai`: decode (failure raises
`ValueError("Invalid image data: ...")`), normalize the mode, re-encode
as PNG. -/
def process_image_for_openai {Bytes : Type} (codec : PngCodec Bytes) (data : Bytes) :
    Except String Bytes :=
  match codec.decode data with
  | some img => Except.ok (codec.encodePNG (processDecoded img))
  | none => Except.error "Invalid image data: cannot identify image file"

/-! ## Provider gateway (`src/services/openai_service.py`)

`generate_image` and `generate_with_reference_urls` are embedded as pure
state transformers over an explicit environment of external effects
(OpenAI SDK calls, HTTP fetches, base64, the wall-clock strftime stamp)
and an explicit filesystem (the set of existing paths). A Python
exception in the `try` body is `Except.error` carrying `str(e)`; the
enclosing `except Exception` handler is the outer `match`. -/

/-- Raw HTTP/file payload bytes. -/
def ByteData := List ℕ

/-- One element of `response.data` from the images *edit* endpoint: it may
carry a remote `url`, inline `b64_json`, both, or neither (absent or
falsy-empty attributes are `none`/`""`). -/
structure ProviderItem where
  url : Option String
  b64Json : Option String

/-- One element of `response.data` from the images *generate* endpoint. -/
structure GenItem where
  b64Json : String
  revisedPrompt : Option String

/-- One entry of the `images` list in the returned payload. -/
structure ImageInfo where
  index : ℕ
  b64Json : String
  revisedPrompt : Option String
  filename : Option String
  filePath : Option String

/-- The service's returned dict (`request_params` echo elided — no claim
inspects it): success flag, human message, images, optional error text. -/
structure Outcome where
  success : Bool
  message : String
  images : List ImageInfo
  error : Option String

/-- `ImageGenerationRequest` (validated enum/range fields as plain data). -/
structure GenRequest where
  prompt : String
  model : String
  size : String
  quality : String
  n : ℕ
  responseFormat : String
  saveToDisk : Bool

/-- `ReferenceGenerationRequest`. -/
structure RefRequest where
  prompt : String
  imageUrls : List String
  model : String
  size : String
  quality : String
  n : ℕ
  responseFormat : String
  saveToDisk : Bool

/-- The filesystem as the list of existing paths. -/
structure FSState where
  files : List String

/-- `open(path, 'wb'); write(...)`: the path now exists. -/
def FSState.write (fs : FSState) (p : String) : FSState := ⟨p :: fs.files⟩

/-- `os.remove(path)`: the path no longer exists. -/
def FSState.remove (fs : FSState) (p : String) : FSState :=
  ⟨fs.files.filter (fun q => q ≠ p)⟩

/-- External effects available to the service, as pure oracles:
`hasClient` is `self.client is not None`; `fetchUrl` is `requests.get` +
`raise_for_status` returning `response.content`; `imagesGenerate` /
`imagesEdit` are the SDK calls returning `response.data`; `b64encode`
is `base64.b64encode(...).decode('utf-8')`; `now` is
`datetime.now().strftime('%Y%m%d_%H%M%S')`. -/
structure PyEnv where
  hasClient : Bool
  codec : PngCodec ByteData
  fetchUrl : String → Except String ByteData
  imagesGenerate : GenRequest → Except String (List GenItem)
  imagesEdit : String → String → String → ℕ → ByteData → Except String (List ProviderItem)
  b64encode : ByteData → String
  now : String

/-- `settings.GENERATED_IMAGES_DIR`. -/
def GENERATED_IMAGES_DIR : String := "generated-images"

/-- `os.path.join(dir, filename)` for the flat layouts used here. -/
def pathJoin (dir file : String) : String := dir ++ "/" ++ file

/-- Python truthiness of an optional string attribute:
`hasattr(x, a) and x.a` is false for a missing attribute, `None`, or `""`. -/
def strTruthy : Option String → Bool
  | none => false
  | some s => !s.isEmpty

/-- `_create_enhanced_prompt`. -/
def create_enhanced_prompt (originalPrompt : String) (refCount : ℕ) : String :=
  if refCount = 1 then
    "Create a new image based on this reference: " ++ originalPrompt ++
      ". Use the style, composition, and visual elements from the reference image as inspiration while generating the requested scene."
  else
    "Create a new image combining elements from " ++ toString refCount ++
      " reference images: " ++ originalPrompt ++
      ". Synthesize the visual styles, color palettes, and artistic elements from all references into a cohesive artwork."

/-- `_save_image_to_disk`: writes the decoded bytes under
`<prefix>.<format>` in the output directory and returns the filename. -/
def save_image_to_disk (filenamePrefix fmt : String) (fs : FSState) : String × FSState :=
  (filenamePrefix ++ "." ++ fmt,
    fs.write (pathJoin GENERATED_IMAGES_DIR (filenamePrefix ++ "." ++ fmt)))

/-- `_download_image_from_url`: fetch, then normalize via
`_process_image_for_openai`; returns (raw bytes, processed stream). -/
def download_image_from_url (env : PyEnv) (url : String) :
    Except String (ByteData × ByteData) :=
  match env.fetchUrl url with
  | Except.error e => Except.error e
  | Except.ok raw =>
    match process_image_for_openai env.codec raw with
    | Except.error e => Except.error e
    | Except.ok processed => Except.ok (raw, processed)

/-- The transient reference file `temp_ref_<now>.png` in the output dir. -/
def tempPath (env : PyEnv) : String :=
  pathJoin GENERATED_IMAGES_DIR ("temp_ref_" ++ env.now ++ ".png")

/-- The branch decision of one loop iteration (lines 128-137): a truthy
`url` attribute wins and is fetched (`requests.get` + `raise_for_status`
may raise) and re-encoded to base64; otherwise a truthy `b64_json` is
used as is; otherwise (`continue`) the item contributes nothing. -/
def itemDataStep (env : PyEnv) (item : ProviderItem) : Except String (Option String) :=
  match item.url with
  | some u =>
    if u.isEmpty then
      (match item.b64Json with
        | some b => Except.ok (if b.isEmpty then none else some b)
        | none => Except.ok none)
    else
      (match env.fetchUrl u with
        | Except.error e => Except.error e
        | Except.ok bytes => Except.ok (some (env.b64encode bytes)))
  | none =>
    (match item.b64Json with
      | some b => Except.ok (if b.isEmpty then none else some b)
      | none => Except.ok none)

/-- The response-unification loop of `generate_with_reference_urls`
(lines 126-153): per enumerated item the `itemDataStep` decision is taken
(a fetch failure raises out of the loop); admitted items are optionally
persisted to disk. -/
def refResponseLoop (env : PyEnv) (req : RefRequest) :
    List ProviderItem → ℕ → FSState → Except String (List ImageInfo) × FSState
  | [], _, fs => (Except.ok [], fs)
  | item :: rest, idx, fs =>
    match itemDataStep env item with
    | Except.error e => (Except.error e, fs)
    | Except.ok none => refResponseLoop env req rest (idx + 1) fs
    | Except.ok (some b64) =>
      let (info, fs1) :=
        if req.saveToDisk then
          let (filename, fs') :=
            save_image_to_disk ("reference_" ++ env.now ++ "_" ++ toString idx)
              req.responseFormat fs
          (ImageInfo.mk idx b64 none (some filename)
            (some (GENERATED_IMAGES_DIR ++ "/" ++ filename)), fs')
        else (ImageInfo.mk idx b64 none none none, fs)
      match refResponseLoop env req rest (idx + 1) fs1 with
      | (Except.error e, fsE) => (Except.error e, fsE)
      | (Except.ok l, fs2) => (Except.ok (info :: l), fs2)

/-- The tail of the `try` body of `generate_with_reference_urls` after a
successful edit submission: run the unification loop and assemble the
success payload (a loop failure re-raises). -/
def refUnifyAndRespond (env : PyEnv) (req : RefRequest) (items : List ProviderItem)
    (fs : FSState) : Except String Outcome × FSState :=
  match refResponseLoop env req items 0 fs with
  | (Except.error e, fsE) => (Except.error e, fsE)
  | (Except.ok images, fs2) =>
    (Except.ok (Outcome.mk true
      ("Successfully generated " ++ toString images.length ++ " image(s) using "
        ++ toString req.imageUrls.length ++ " reference(s)")
      images none), fs2)

/-- The `try` body of `generate_with_reference_urls`: client check, empty
reference check, download+normalize of the *first* URL only, temp-file
write, `images.edit` guarded by `try/finally os.remove`, then response
unification. -/
def refGenBody (env : PyEnv) (req : RefRequest) (fs : FSState) :
    Except String Outcome × FSState :=
  if !env.hasClient then
    (Except.ok (Outcome.mk false "Please set OPENAI_API_KEY environment variable" []
      (some "OpenAI API key not configured")), fs)
  else if req.imageUrls.isEmpty then
    (Except.ok (Outcome.mk false "Please provide at least one reference image URL" []
      (some "No reference images provided")), fs)
  else
    match download_image_from_url env req.imageUrls.headI with
    | Except.error e => (Except.error e, fs)
    | Except.ok _rawAndProcessed =>
      match env.imagesEdit req.model
          (create_enhanced_prompt req.prompt req.imageUrls.length)
          req.size req.n _rawAndProcessed.2 with
      | Except.error e => (Except.error e, (fs.write (tempPath env)).remove (tempPath env))
      | Except.ok items =>
        refUnifyAndRespond env req items ((fs.write (tempPath env)).remove (tempPath env))

/-- `generate_with_reference_urls`: the `try` body with its
`except Exception as e` handler, which converts any raised exception into
a failure outcome carrying `str(e)`. -/
def generate_with_reference_urls (env : PyEnv) (req : RefRequest) (fs : FSState) :
    Outcome × FSState :=
  match refGenBody env req fs with
  | (Except.ok o, fs') => (o, fs')
  | (Except.error e, fs') =>
    (Outcome.mk false "Failed to generate image with references" [] (some e), fs')

/-- The result-collection loop of `generate_image` (lines 38-55). -/
def genResponseLoop (env : PyEnv) (req : GenRequest) :
    List GenItem → ℕ → FSState → List ImageInfo × FSState
  | [], _, fs => ([], fs)
  | item :: rest, idx, fs =>
    let (info, fs1) :=
      if req.saveToDisk then
        let (filename, fs') :=
          save_image_to_disk ("generated_" ++ env.now ++ "_" ++ toString idx)
            req.responseFormat fs
        (ImageInfo.mk idx item.b64Json item.revisedPrompt (some filename)
          (some (GENERATED_IMAGES_DIR ++ "/" ++ filename)), fs')
      else (ImageInfo.mk idx item.b64Json item.revisedPrompt none none, fs)
    let (l, fs2) := genResponseLoop env req rest (idx + 1) fs1
    (info :: l, fs2)

/-- The `try` body of `generate_image`. -/
def genBody (env : PyEnv) (req : GenRequest) (fs : FSState) :
    Except String Outcome × FSState :=
  if !env.hasClient then
    (Except.ok (Outcome.mk false "Please set OPENAI_API_KEY environment variable" []
      (some "OpenAI API key not configured")), fs)
  else
    match env.imagesGenerate req with
    | Except.error e => (Except.error e, fs)
    | Except.ok data =>
      let (images, fs') := genResponseLoop env req data 0 fs
      (Except.ok (Outcome.mk true
        ("Successfully generated " ++ toString images.length ++ " image(s)")
        images none), fs')

/-- `generate_image`: the `try` body with its `except Exception` handler. -/
def generate_image (env : PyEnv) (req : GenRequest) (fs : FSState) :
    Outcome × FSState :=
  match genBody env req fs with
  | (Except.ok o, fs') => (o, fs')
  | (Except.error e, fs') =>
    (Outcome.mk false "Failed to generate image" [] (some e), fs')

/-- Environment for the C6 counterexample: the first reference URL fetches
fine, the second always fails, the edit endpoint returns one inline item. -/
def refCexEnv : PyEnv :=
  PyEnv.mk true
    (PngCodec.mk
      (fun _ => some (DecodedImage.rgb (RGBImage.mk 1 1 (fun _ _ => RGBColor.mk 0 0 0))))
      (fun _ => []))
    (fun u => if u = "http://refs/1.png" then Except.ok [1]
      else Except.error "FetchError: could not fetch")
    (fun _ => Except.error "unused")
    (fun _ _ _ _ _ => Except.ok [ProviderItem.mk none (some "QUJD")])
    (fun _ => "QUJD")
    "20250101_000000"

/-- Two reference URLs; fetching the second one fails. -/
def refCexReq : RefRequest :=
  RefRequest.mk "a cat" ["http://refs/1.png", "http://refs/2.png"]
    "gpt-image-1" "1024x1024" "high" 1 "png" false

/-- Spec-side description of result unification (§4.4 "Response
unification"), per enumerated item: a present non-empty URL is fetched
and re-encoded; otherwise present non-empty inline data is used; an item
with neither is dropped. Stated as the claim words it, to be compared
with the loop `refResponseLoop` implements. -/
def unifySpecItem (env : PyEnv) (p : ℕ × ProviderItem) : Option (ℕ × String) :=
  match p.2.url with
  | some u =>
    if u.isEmpty then
      (match p.2.b64Json with
        | some b => if b.isEmpty then none else some (p.1, b)
        | none => none)
    else
      (match env.fetchUrl u with
        | Except.ok bytes => some (p.1, env.b64encode bytes)
        | Except.error _ => none)
  | none =>
    (match p.2.b64Json with
      | some b => if b.isEmpty then none else some (p.1, b)
      | none => none)

/-! ## Properties: lemmas, claim theorems, counterexamples and witnesses -/

lemma recordsWF_mono {st : RLState} {t t' : ℚ} (h : RecordsWF st t) (htt : t ≤ t') :
    RecordsWF st t' :=
  fun k => ⟨(h k).1, fun ts hts => le_trans ((h k).2 ts hts) htt⟩

lemma recordsWF_init (limit : ℕ) (t : ℚ) : RecordsWF (initState limit) t := by
  intro k
  constructor
  · simp [initState, List.Sorted]
  · simp [initState]

/-- The first element surviving `dropWhile` fails the predicate. -/
lemma dropWhile_head_false {α : Type} {p : α → Bool} :
    ∀ {l : List α} {x : α} {xs : List α}, l.dropWhile p = x :: xs → p x = false := by
  intro l
  induction l with
  | nil => intro x xs h; simp [List.dropWhile] at h
  | cons a t ih =>
    intro x xs h
    by_cases hpa : p a = true
    · rw [List.dropWhile_cons_of_pos hpa] at h
      exact ih h
    · rw [List.dropWhile_cons_of_neg hpa] at h
      cases h
      exact Bool.eq_false_iff.mpr hpa

/-- On a sorted record, pruning leaves only timestamps within the window:
everything surviving the prefix trim is `≥ t - window`. -/
lemma mem_pruneRecord_ge {window t : ℚ} {rec : List ℚ}
    (hs : rec.Sorted (· ≤ ·)) :
    ∀ ts ∈ pruneRecord window t rec, t - window ≤ ts := by
  induction rec with
  | nil => intro ts hts; simp [pruneRecord, List.dropWhile] at hts
  | cons a rest ih =>
    intro ts hts
    by_cases ha : a < t - window
    · rw [pruneRecord, List.dropWhile_cons_of_pos (by simpa using ha)] at hts
      exact ih hs.of_cons ts hts
    · rw [pruneRecord, List.dropWhile_cons_of_neg (by simpa using ha)] at hts
      rcases List.mem_cons.mp hts with rfl | hmem
      · exact le_of_not_lt ha
      · exact le_trans (le_of_not_lt ha) (List.rel_of_sorted_cons hs ts hmem)

/-- Pruning a sorted record leaves it sorted. -/
lemma pruneRecord_sorted {window t : ℚ} {rec : List ℚ}
    (hs : rec.Sorted (· ≤ ·)) : (pruneRecord window t rec).Sorted (· ≤ ·) :=
  hs.sublist (List.dropWhile_sublist _)

/-- Pruned records are made of old record entries. -/
lemma mem_of_mem_pruneRecord {window t : ℚ} {rec : List ℚ} {ts : ℚ}
    (h : ts ∈ pruneRecord window t rec) : ts ∈ rec :=
  (List.dropWhile_sublist _).mem h

/-- One `dispatch` step preserves record well-formedness when the clock
does not move backwards. -/
lemma recordsWF_dispatch {st : RLState} {t t' : ℚ} (h : RecordsWF st t)
    (htt : t ≤ t') (req : Request) : RecordsWF (rlDispatch st req t').2 t' := by
  have h' : RecordsWF st t' := recordsWF_mono h htt
  unfold rlDispatch
  by_cases hp : req.path = "/health"
  · simpa [hp] using h'
  · simp only [hp, if_false]
    by_cases hl : st.limit ≤ (pruneRecord st.window t' (st.requests req.clientIp)).length
    · simp only [hl, if_true]
      intro k
      by_cases hk : k = req.clientIp
      · subst hk
        simp only [eq_self_iff_true, if_true]
        refine ⟨pruneRecord_sorted (h' req.clientIp).1, ?_⟩
        intro ts hts
        exact (h' req.clientIp).2 ts (mem_of_mem_pruneRecord hts)
      · simpa only [if_neg hk] using h' k
    · simp only [hl, if_false]
      intro k
      by_cases hk : k = req.clientIp
      · subst hk
        simp only [eq_self_iff_true, if_true]
        constructor
        · rw [List.Sorted, List.pairwise_append]
          refine ⟨pruneRecord_sorted (h' req.clientIp).1, List.pairwise_singleton _ _, ?_⟩
          intro a ha b hb
          rw [List.mem_singleton] at hb
          subst hb
          exact (h' req.clientIp).2 a (mem_of_mem_pruneRecord ha)
        · intro ts hts
          rcases List.mem_append.mp hts with hmem | hmem
          · exact (h' req.clientIp).2 ts (mem_of_mem_pruneRecord hmem)
          · rw [List.mem_singleton] at hmem
            subst hmem
            exact le_refl _
      · simpa only [if_neg hk] using h' k

/-- Folding `dispatch` over chronological events preserves well-formedness
up to the last timestamp seen. -/
lemma recordsWF_fold :
    ∀ (events : List (Request × ℚ)) (st : RLState) (t0 : ℚ),
      RecordsWF st t0 → (t0 :: events.map Prod.snd).Sorted (· ≤ ·) →
      RecordsWF (events.foldl (fun s e => (rlDispatch s e.1 e.2).2) st)
        ((events.map Prod.snd).getLastD t0) := by
  intro events
  induction events with
  | nil => intro st t0 hwf _; simpa using hwf
  | cons e rest ih =>
    intro st t0 hwf hsort
    have h01 : t0 ≤ e.2 := List.rel_of_sorted_cons hsort e.2 (by simp)
    have hwf1 : RecordsWF (rlDispatch st e.1 e.2).2 e.2 :=
      recordsWF_dispatch hwf h01 e.1
    have hsort1 : (e.2 :: rest.map Prod.snd).Sorted (· ≤ ·) := by
      have := hsort.of_cons
      rwa [List.map_cons] at this
    rw [List.map_cons, List.getLastD_cons, List.foldl_cons]
    exact ih ((rlDispatch st e.1 e.2).2) e.2 hwf1 hsort1

/-- The state after an entire chronological run is well-formed at any time
at or beyond the run's last timestamp. -/
lemma recordsWF_runChecks {limit : ℕ} {events : List (Request × ℚ)} {t : ℚ}
    (hchron : chronological events) (hle : ∀ ts ∈ events.map Prod.snd, ts ≤ t) :
    RecordsWF (runChecks limit events) t := by
  rcases hev : events.map Prod.snd with _ | ⟨t1, rest⟩
  · have : events = [] := by
      cases events with
      | nil => rfl
      | cons e r => simp at hev
    subst this
    exact recordsWF_init limit t
  · have hchron' : (events.map Prod.snd).Sorted (· ≤ ·) := hchron
    have hsort : (t1 :: events.map Prod.snd).Sorted (· ≤ ·) := by
      rw [hev]
      rw [hev] at hchron'
      refine List.sorted_cons.mpr ⟨?_, hchron'⟩
      intro b hb
      rcases List.mem_cons.mp hb with rfl | hmem
      · exact le_refl _
      · exact (List.sorted_cons.mp hchron').1 b hmem
    have hfold := recordsWF_fold events (initState limit) t1 (recordsWF_init limit t1) hsort
    have hlast : (events.map Prod.snd).getLastD t1 ≤ t := by
      refine hle _ ?_
      rw [hev, List.getLastD_cons]
      exact List.getLastD_mem_cons _ _
    exact recordsWF_mono hfold hlast

/-- `dispatch` never changes `self.window`. -/
lemma rlDispatch_window (st : RLState) (req : Request) (t : ℚ) :
    ((rlDispatch st req t).2).window = st.window := by
  unfold rlDispatch
  by_cases hp : req.path = "/health"
  · simp [hp]
  · simp only [hp, if_false]
    split_ifs <;> rfl

/-- `dispatch` never changes `self.limit`. -/
lemma rlDispatch_limit (st : RLState) (req : Request) (t : ℚ) :
    ((rlDispatch st req t).2).limit = st.limit := by
  unfold rlDispatch
  by_cases hp : req.path = "/health"
  · simp [hp]
  · simp only [hp, if_false]
    split_ifs <;> rfl

lemma foldl_dispatch_window :
    ∀ (events : List (Request × ℚ)) (st : RLState),
      (events.foldl (fun s e => (rlDispatch s e.1 e.2).2) st).window = st.window := by
  intro events
  induction events with
  | nil => intro st; rfl
  | cons e rest ih =>
    intro st
    rw [List.foldl_cons, ih, rlDispatch_window]

lemma foldl_dispatch_limit :
    ∀ (events : List (Request × ℚ)) (st : RLState),
      (events.foldl (fun s e => (rlDispatch s e.1 e.2).2) st).limit = st.limit := by
  intro events
  induction events with
  | nil => intro st; rfl
  | cons e rest ih =>
    intro st
    rw [List.foldl_cons, ih, rlDispatch_limit]

lemma runChecks_window (limit : ℕ) (events : List (Request × ℚ)) :
    (runChecks limit events).window = 60 :=
  foldl_dispatch_window events (initState limit)

lemma runChecks_limit (limit : ℕ) (events : List (Request × ℚ)) :
    (runChecks limit events).limit = limit :=
  foldl_dispatch_limit events (initState limit)

/-- The oldest timestamp surviving the prune is inside the window. -/
lemma pruneRecord_headI_ge {window t : ℚ} {rec : List ℚ}
    (h : pruneRecord window t rec ≠ []) :
    t - window ≤ (pruneRecord window t rec).headI := by
  rcases hp : pruneRecord window t rec with _ | ⟨x, xs⟩
  · exact absurd hp h
  · rw [pruneRecord] at hp
    have hx : (fun ts => decide (ts < t - window)) x = false :=
      @dropWhile_head_false ℚ (fun ts => decide (ts < t - window)) _ _ _ hp
    have : ¬ x < t - window := of_decide_eq_false (by simpa using hx)
    simpa [List.headI] using le_of_not_lt this

/-- A rejection's `retry_after` is non-negative whenever something survived
the pruning. -/
lemma retryAfter_nonneg {window t : ℚ} {rec : List ℚ}
    (h : pruneRecord window t rec ≠ []) :
    0 ≤ pyInt (window - (t - (pruneRecord window t rec).headI)) := by
  have hle : t - window ≤ (pruneRecord window t rec).headI := pruneRecord_headI_ge h
  have hq : 0 ≤ window - (t - (pruneRecord window t rec).headI) := by linarith
  rw [pyInt, if_pos hq]
  exact Int.floor_nonneg.mpr hq

/-- C1: after the pruning step of any admission check at time `t` (the last
check of an arbitrary chronological run), every timestamp remaining in the
checked key's record is `≥ t - 60`; and whenever that check admits the
request, the key's record - the appended timestamp included - holds at
most `limit` timestamps. -/
theorem rl_sliding_window_invariant (limit : ℕ) (es : List (Request × ℚ))
    (req : Request) (t : ℚ)
    (hchron : chronological (es ++ [(req, t)])) :
    (∀ ts ∈ pruneRecord 60 t ((runChecks limit es).requests req.clientIp), t - 60 ≤ ts) ∧
    ((rlDispatch (runChecks limit es) req t).1 = Response.ok → req.path ≠ "/health" →
      ((rlDispatch (runChecks limit es) req t).2.requests req.clientIp).length ≤ limit) := by
  have hchron' : chronological es := by
    unfold chronological at hchron ⊢
    rw [List.map_append] at hchron
    exact hchron.sublist ((es.map Prod.snd).sublist_append_left _)
  have hle : ∀ ts ∈ es.map Prod.snd, ts ≤ t := by
    intro ts hts
    unfold chronological at hchron
    rw [List.map_append] at hchron
    exact (List.pairwise_append.mp hchron).2.2 ts hts t (by simp)
  have hwf : RecordsWF (runChecks limit es) t := recordsWF_runChecks hchron' hle
  constructor
  · exact mem_pruneRecord_ge (hwf req.clientIp).1
  · intro hok hpath
    unfold rlDispatch at hok ⊢
    rw [if_neg hpath] at hok ⊢
    by_cases hl : (runChecks limit es).limit ≤
        (pruneRecord (runChecks limit es).window t
          ((runChecks limit es).requests req.clientIp)).length
    · rw [if_pos hl] at hok
      simp at hok
    · rw [if_neg hl] at hok ⊢
      simp only [eq_self_iff_true, if_true]
      rw [List.length_append, List.length_singleton]
      rw [runChecks_limit] at hl
      omega

/-- C1 witness: a concrete two-check chronological run — the timestamp
surviving the second check's pruning is inside its window, and after that
admission the key's record holds at most 60 timestamps. -/
theorem rl_sliding_window_invariant_witness :
    (2:ℚ) - 60 ≤ 1 ∧
    ((rlDispatch (runChecks 60 [(⟨"/gen", "a"⟩, (1:ℚ))]) ⟨"/gen", "a"⟩ 2).2.requests "a").length
      ≤ 60 := by
  have h := rl_sliding_window_invariant 60 [(⟨"/gen", "a"⟩, (1:ℚ))] ⟨"/gen", "a"⟩ 2 (by
    unfold chronological
    norm_num [List.sorted_cons])
  have hrec : (runChecks 60 [(⟨"/gen", "a"⟩, (1:ℚ))]).requests "a" = [(1:ℚ)] := by
    simp [runChecks, rlDispatch, initState, pruneRecord]
  have hpr : pruneRecord (runChecks 60 [(⟨"/gen", "a"⟩, (1:ℚ))]).window 2
      ((runChecks 60 [(⟨"/gen", "a"⟩, (1:ℚ))]).requests "a") = [(1:ℚ)] := by
    rw [runChecks_window, hrec, pruneRecord, List.dropWhile_cons_of_neg (by
      simp only [decide_eq_true_eq]
      norm_num)]
  have hpr60 : pruneRecord 60 2
      ((runChecks 60 [(⟨"/gen", "a"⟩, (1:ℚ))]).requests "a") = [(1:ℚ)] := by
    rw [hrec, pruneRecord, List.dropWhile_cons_of_neg (by
      simp only [decide_eq_true_eq]
      norm_num)]
  have hok : (rlDispatch (runChecks 60 [(⟨"/gen", "a"⟩, (1:ℚ))]) ⟨"/gen", "a"⟩ 2).1
      = Response.ok := by
    unfold rlDispatch
    rw [if_neg (by simp), if_neg (by
      rw [hpr, runChecks_limit]
      norm_num)]
  refine ⟨?_, h.2 hok (by simp)⟩
  exact h.1 1 (by rw [hpr60]; simp)

/-- C2: on a non-health check, if the pruned record has reached the limit
the request is rejected with `retry_after = int(window - (current_time -
oldest_remaining))`, a non-negative integer; otherwise `current_time` is
appended to the record and the request is admitted. -/
theorem rl_admission_check (st : RLState) (req : Request) (t : ℚ)
    (hpath : req.path ≠ "/health") (hlim : 0 < st.limit) :
    (st.limit ≤ (pruneRecord st.window t (st.requests req.clientIp)).length →
      (rlDispatch st req t).1 = Response.rateLimited
          (pyInt (st.window - (t - (pruneRecord st.window t (st.requests req.clientIp)).headI))) ∧
      0 ≤ pyInt (st.window - (t - (pruneRecord st.window t (st.requests req.clientIp)).headI))) ∧
    ((pruneRecord st.window t (st.requests req.clientIp)).length < st.limit →
      (rlDispatch st req t).1 = Response.ok ∧
      (rlDispatch st req t).2.requests req.clientIp
        = pruneRecord st.window t (st.requests req.clientIp) ++ [t]) := by
  constructor
  · intro hge
    have hne : pruneRecord st.window t (st.requests req.clientIp) ≠ [] := by
      intro hnil
      rw [hnil] at hge
      simp at hge
      omega
    constructor
    · unfold rlDispatch
      rw [if_neg hpath]
      simp only [hge, if_true]
    · exact retryAfter_nonneg hne
  · intro hlt
    have hnle : ¬ st.limit ≤ (pruneRecord st.window t (st.requests req.clientIp)).length :=
      not_le.mpr hlt
    unfold rlDispatch
    rw [if_neg hpath, if_neg hnle]
    refine ⟨rfl, ?_⟩
    simp

/-- C2 witness: a key with two admitted timestamps at time 0, checked at
time 30 with limit 2: rejected with the prescribed non-negative
`retry_after`. -/
theorem rl_admission_check_witness :
    (rlDispatch (RLState.mk (fun _ => [(0:ℚ), 0]) 2 60) ⟨"/gen", "k"⟩ 30).1
      = Response.rateLimited
        (pyInt ((RLState.mk (fun _ => [(0:ℚ), 0]) 2 60).window - (30 -
          (pruneRecord (RLState.mk (fun _ => [(0:ℚ), 0]) 2 60).window 30
            ((RLState.mk (fun _ => [(0:ℚ), 0]) 2 60).requests "k")).headI))) ∧
    0 ≤ pyInt ((RLState.mk (fun _ => [(0:ℚ), 0]) 2 60).window - (30 -
          (pruneRecord (RLState.mk (fun _ => [(0:ℚ), 0]) 2 60).window 30
            ((RLState.mk (fun _ => [(0:ℚ), 0]) 2 60).requests "k")).headI)) :=
  (rl_admission_check (RLState.mk (fun _ => [(0:ℚ), 0]) 2 60) ⟨"/gen", "k"⟩ 30
      (by simp) (by norm_num)).1 (by
    show (2:ℕ) ≤ (pruneRecord 60 30 [(0:ℚ), 0]).length
    rw [pruneRecord, List.dropWhile_cons_of_neg (by
      simp only [decide_eq_true_eq]
      norm_num)]
    simp)

/-- Pruning at a time whose cutoff lies below 0 keeps a block of zero
timestamps untouched. -/
lemma pruneRecord_replicate_zero {window t : ℚ} (hcut : ¬ (0 : ℚ) < t - window) :
    ∀ j : ℕ, pruneRecord window t (List.replicate j (0:ℚ)) = List.replicate j (0:ℚ) := by
  intro j
  induction j with
  | zero => rfl
  | succ n ih =>
    rw [List.replicate_succ, pruneRecord,
      List.dropWhile_cons_of_neg (by simpa using hcut)]

/-- Dispatching `n` further requests at time 0 against a key already
holding `j` zero-timestamps admits every one of them while `j + n` stays
within the limit. -/
lemma run_admits_at_zero :
    ∀ (n : ℕ) (st : RLState) (req : Request) (j : ℕ),
      req.path ≠ "/health" → st.window = 60 →
      st.requests req.clientIp = List.replicate j (0:ℚ) → j + n ≤ st.limit →
      ((List.replicate n (req, (0:ℚ))).foldl
          (fun s e => (rlDispatch s e.1 e.2).2) st).requests req.clientIp
        = List.replicate (j + n) (0:ℚ) := by
  intro n
  induction n with
  | zero => intro st req j _ _ hrec _; simpa using hrec
  | succ m ih =>
    intro st req j hpath hwin hrec hle
    have hcut : ¬ (0:ℚ) < 0 - st.window := by rw [hwin]; norm_num
    have hprune : pruneRecord st.window 0 (st.requests req.clientIp)
        = List.replicate j (0:ℚ) := by
      rw [hrec]
      exact pruneRecord_replicate_zero hcut j
    have hnle : ¬ st.limit ≤ (pruneRecord st.window 0 (st.requests req.clientIp)).length := by
      rw [hprune, List.length_replicate]
      omega
    have hstep : (rlDispatch st req 0).2.requests req.clientIp
        = List.replicate (j + 1) (0:ℚ) := by
      unfold rlDispatch
      rw [if_neg hpath, if_neg hnle]
      simp only [eq_self_iff_true, if_true]
      rw [hprune, ← List.replicate_succ']
    rw [List.replicate_succ, List.foldl_cons]
    have hstep_win : ((rlDispatch st req 0).2).window = 60 := by
      rw [rlDispatch_window, hwin]
    have hstep_lim : ((rlDispatch st req 0).2).limit = st.limit := rlDispatch_limit st req 0
    have := ih ((rlDispatch st req 0).2) req (j + 1) hpath hstep_win hstep
      (by rw [hstep_lim]; omega)
    have harith : j + 1 + m = j + (m + 1) := by omega
    rw [this, harith]

/-- C3 counterexample: sixty requests from one key are all admitted at
time 0; the 61st request from the same key arrives at time 119/2 = 59.5,
strictly inside the same trailing minute, and is answered with HTTP 429
whose `retry_after` is `int(60 - 59.5) = 0`, not strictly positive. -/
theorem rl_retry_after_zero_cex :
    (runChecks 60 (List.replicate 60 (⟨"/api/v1/images/generate", "10.0.0.1"⟩, (0:ℚ)))).requests
        "10.0.0.1" = List.replicate 60 (0:ℚ)
    ∧ ((119:ℚ)/2 - 60 < 0 ∧ (0:ℚ) < (119:ℚ)/2)
    ∧ (rlDispatch
        (runChecks 60 (List.replicate 60 (⟨"/api/v1/images/generate", "10.0.0.1"⟩, (0:ℚ))))
        ⟨"/api/v1/images/generate", "10.0.0.1"⟩ ((119:ℚ)/2)).1
      = Response.rateLimited 0 := by
  have hrun : (runChecks 60 (List.replicate 60
      (⟨"/api/v1/images/generate", "10.0.0.1"⟩, (0:ℚ)))).requests "10.0.0.1"
      = List.replicate 60 (0:ℚ) := by
    have := run_admits_at_zero 60 (initState 60) ⟨"/api/v1/images/generate", "10.0.0.1"⟩ 0
      (by simp) rfl rfl (by simp [initState])
    simpa [runChecks] using this
  refine ⟨hrun, ⟨by norm_num, by norm_num⟩, ?_⟩
  have hwin : (runChecks 60 (List.replicate 60
      (⟨"/api/v1/images/generate", "10.0.0.1"⟩, (0:ℚ)))).window = 60 := runChecks_window _ _
  have hlim : (runChecks 60 (List.replicate 60
      (⟨"/api/v1/images/generate", "10.0.0.1"⟩, (0:ℚ)))).limit = 60 := runChecks_limit _ _
  have hcut : ¬ (0:ℚ) < (119:ℚ)/2 - 60 := by norm_num
  have hprune : pruneRecord
      (runChecks 60 (List.replicate 60 (⟨"/api/v1/images/generate", "10.0.0.1"⟩, (0:ℚ)))).window
      ((119:ℚ)/2)
      ((runChecks 60 (List.replicate 60
        (⟨"/api/v1/images/generate", "10.0.0.1"⟩, (0:ℚ)))).requests "10.0.0.1")
      = List.replicate 60 (0:ℚ) := by
    rw [hrun, hwin]
    exact pruneRecord_replicate_zero (by norm_num) 60
  have hge : (runChecks 60 (List.replicate 60
      (⟨"/api/v1/images/generate", "10.0.0.1"⟩, (0:ℚ)))).limit ≤
      (pruneRecord
        (runChecks 60 (List.replicate 60 (⟨"/api/v1/images/generate", "10.0.0.1"⟩, (0:ℚ)))).window
        ((119:ℚ)/2)
        ((runChecks 60 (List.replicate 60
          (⟨"/api/v1/images/generate", "10.0.0.1"⟩, (0:ℚ)))).requests "10.0.0.1")).length := by
    rw [hprune, hlim, List.length_replicate]
  unfold rlDispatch
  rw [if_neg (by simp), if_pos hge]
  have hheadI : (pruneRecord
      (runChecks 60 (List.replicate 60 (⟨"/api/v1/images/generate", "10.0.0.1"⟩, (0:ℚ)))).window
      ((119:ℚ)/2)
      ((runChecks 60 (List.replicate 60
        (⟨"/api/v1/images/generate", "10.0.0.1"⟩, (0:ℚ)))).requests "10.0.0.1")).headI = 0 := by
    rw [hprune]
    rw [show (60:ℕ) = 59 + 1 from rfl, List.replicate_succ]
    rfl
  rw [hheadI, hwin]
  have hval : (60:ℚ) - ((119:ℚ)/2 - 0) = 1/2 := by norm_num
  rw [hval]
  have : pyInt (1/2 : ℚ) = 0 := by
    rw [pyInt, if_pos (by norm_num)]
    rw [Int.floor_eq_zero_iff]
    constructor <;> norm_num
  rw [this]

/-- C3 amended: when a key's pruned record already holds (at least) the
full limit of 60 timestamps within the trailing minute, the 61st request
is answered with HTTP 429 and a retry_after that is ≥ 0 (the integer
truncation of `60 - (t - oldest)` can be exactly 0, so strict positivity
does not hold). -/
theorem rl_61st_request_429 (st : RLState) (req : Request) (t : ℚ)
    (hpath : req.path ≠ "/health") (hlim : st.limit = 60)
    (hcount : 60 ≤ (pruneRecord st.window t (st.requests req.clientIp)).length) :
    (rlDispatch st req t).1 = Response.rateLimited
        (pyInt (st.window - (t - (pruneRecord st.window t (st.requests req.clientIp)).headI))) ∧
    0 ≤ pyInt (st.window - (t - (pruneRecord st.window t (st.requests req.clientIp)).headI)) := by
  have hge : st.limit ≤ (pruneRecord st.window t (st.requests req.clientIp)).length := by
    rw [hlim]; exact hcount
  have hne : pruneRecord st.window t (st.requests req.clientIp) ≠ [] := by
    intro hnil
    rw [hnil] at hcount
    simp at hcount
  refine ⟨?_, retryAfter_nonneg hne⟩
  unfold rlDispatch
  rw [if_neg hpath, if_pos hge]

/-- C3 amended witness: the counterexample scenario, replayed through the
amended statement: the 61st check yields 429 with retry_after ≥ 0. -/
theorem rl_61st_request_429_witness :
    (rlDispatch (RLState.mk (fun _ => List.replicate 60 (0:ℚ)) 60 60)
        ⟨"/gen", "k"⟩ ((119:ℚ)/2)).1
      = Response.rateLimited
          (pyInt ((RLState.mk (fun _ => List.replicate 60 (0:ℚ)) 60 60).window - ((119:ℚ)/2 -
            (pruneRecord (RLState.mk (fun _ => List.replicate 60 (0:ℚ)) 60 60).window ((119:ℚ)/2)
              ((RLState.mk (fun _ => List.replicate 60 (0:ℚ)) 60 60).requests "k")).headI))) ∧
    0 ≤ pyInt ((RLState.mk (fun _ => List.replicate 60 (0:ℚ)) 60 60).window - ((119:ℚ)/2 -
          (pruneRecord (RLState.mk (fun _ => List.replicate 60 (0:ℚ)) 60 60).window ((119:ℚ)/2)
            ((RLState.mk (fun _ => List.replicate 60 (0:ℚ)) 60 60).requests "k")).headI)) :=
  rl_61st_request_429 (RLState.mk (fun _ => List.replicate 60 (0:ℚ)) 60 60)
    ⟨"/gen", "k"⟩ ((119:ℚ)/2) (by simp) rfl
    (by rw [show (RLState.mk (fun _ => List.replicate 60 (0:ℚ)) 60 60).window = 60 from rfl]
        rw [show (RLState.mk (fun _ => List.replicate 60 (0:ℚ)) 60 60).requests "k"
            = List.replicate 60 (0:ℚ) from rfl]
        rw [pruneRecord_replicate_zero (by norm_num) 60, List.length_replicate])

/-- C10: a rejected request consumes no capacity — after a 429 the
rejected key's record is exactly its pruned former self (nothing was
appended), and no check ever touches another key's record. -/
theorem rl_rejection_frame (st : RLState) (req : Request) (t : ℚ) :
    (∀ k, k ≠ req.clientIp → (rlDispatch st req t).2.requests k = st.requests k) ∧
    (∀ r : ℤ, (rlDispatch st req t).1 = Response.rateLimited r →
      (rlDispatch st req t).2.requests req.clientIp
        = pruneRecord st.window t (st.requests req.clientIp)) := by
  constructor
  · intro k hk
    unfold rlDispatch
    by_cases hp : req.path = "/health"
    · rw [if_pos hp]
    · rw [if_neg hp]
      by_cases hl : st.limit ≤ (pruneRecord st.window t (st.requests req.clientIp)).length
      · rw [if_pos hl]
        simp only [if_neg hk]
      · rw [if_neg hl]
        simp only [if_neg hk]
  · intro r hr
    unfold rlDispatch at hr ⊢
    by_cases hp : req.path = "/health"
    · rw [if_pos hp] at hr
      simp at hr
    · rw [if_neg hp] at hr ⊢
      by_cases hl : st.limit ≤ (pruneRecord st.window t (st.requests req.clientIp)).length
      · rw [if_pos hl]
        simp only [eq_self_iff_true, if_true]
      · rw [if_neg hl] at hr
        simp at hr

/-- C10 witness: a full key is rejected at time 1; its record stays the
pruned one and an unrelated key's record is untouched. -/
theorem rl_rejection_frame_witness :
    ((rlDispatch (RLState.mk (fun _ => [(0:ℚ)]) 1 60) ⟨"/gen", "k"⟩ 1).2.requests "other"
        = (RLState.mk (fun _ => [(0:ℚ)]) 1 60).requests "other")
    ∧ ((rlDispatch (RLState.mk (fun _ => [(0:ℚ)]) 1 60) ⟨"/gen", "k"⟩ 1).2.requests "k"
        = pruneRecord 60 1 [(0:ℚ)]) := by
  constructor
  · exact (rl_rejection_frame (RLState.mk (fun _ => [(0:ℚ)]) 1 60) ⟨"/gen", "k"⟩ 1).1
      "other" (by simp)
  · have hge : (RLState.mk (fun _ => [(0:ℚ)]) 1 60).limit ≤
        (pruneRecord (RLState.mk (fun _ => [(0:ℚ)]) 1 60).window 1
          ((RLState.mk (fun _ => [(0:ℚ)]) 1 60).requests
            (Request.mk "/gen" "k").clientIp)).length := by
      show (1 : ℕ) ≤ (pruneRecord 60 1 [(0:ℚ)]).length
      rw [pruneRecord, List.dropWhile_cons_of_neg (by simp)]
      simp
    refine (rl_rejection_frame (RLState.mk (fun _ => [(0:ℚ)]) 1 60) ⟨"/gen", "k"⟩ 1).2
      (pyInt (60 - (1 - (pruneRecord 60 1 [(0:ℚ)]).headI))) ?_
    unfold rlDispatch
    rw [if_neg (by simp), if_pos hge]

/-- Two-sided fixed-point bound: `muldiv255 a b` is `a*b/255` up to
`128/255` in either direction. -/
lemma muldiv255_bounds (x y : ℕ) (hx : x ≤ 255) (hy : y ≤ 255) :
    x * y ≤ 255 * muldiv255 x y + 128 ∧ 255 * muldiv255 x y ≤ x * y + 128 := by
  have hv : x * y ≤ 65025 := Nat.mul_le_mul hx hy
  unfold muldiv255
  generalize x * y = v at hv ⊢
  omega

/-- `muldiv255 x 255 = x` on bytes: full weight keeps the channel. -/
lemma muldiv255_full (x : ℕ) (hx : x ≤ 255) : muldiv255 x 255 = x := by
  have h := muldiv255_bounds x 255 hx (le_refl 255)
  omega

/-- `muldiv255 x 0 = 0`: zero weight erases the channel. -/
lemma muldiv255_zero (x : ℕ) : muldiv255 x 0 = 0 := by
  unfold muldiv255
  omega

/-- Channel-level facts about pasting onto white with mask `a`:
alpha 0 gives white, alpha 255 keeps the source, and in general the
result sits between the source value and 255 and is the linear blend
`((255-a)*255 + a*c) / 255` up to rounding slack 128/255. -/
lemma pilBlend_white (c a : ℕ) (hc : c ≤ 255) (ha : a ≤ 255) :
    (a = 0 → pilBlend a 255 c = 255) ∧
    (a = 255 → pilBlend a 255 c = c) ∧
    (c ≤ pilBlend a 255 c ∧ pilBlend a 255 c ≤ 255) ∧
    ((255 - a) * 255 + a * c ≤ 255 * pilBlend a 255 c + 128 ∧
      255 * pilBlend a 255 c ≤ (255 - a) * 255 + a * c + 128) := by
  have hbg : muldiv255 255 (255 - a) = 255 - a := by
    have h := muldiv255_bounds 255 (255 - a) (le_refl 255) (by omega)
    omega
  rw [pilBlend, hbg]
  refine ⟨?_, ?_, ?_, ?_⟩
  · intro h0
    subst h0
    rw [muldiv255_zero]
  · intro h255
    subst h255
    rw [muldiv255_full c hc]
    omega
  · have hfg := muldiv255_bounds c a hc ha
    have hP : c * a ≤ 255 * a := Nat.mul_le_mul hc (le_refl a)
    have hdist : c * a + c * (255 - a) = c * 255 := by
      rw [← Nat.mul_add]
      congr 1
      omega
    have hQ : c * (255 - a) ≤ 255 * (255 - a) := Nat.mul_le_mul hc (le_refl _)
    rcases hfg with ⟨hfg1, hfg2⟩
    generalize hm : muldiv255 c a = md at hfg1 hfg2 ⊢
    generalize hp : c * a = P at hfg1 hfg2 hP hdist
    generalize hq : c * (255 - a) = Q at hdist hQ
    omega
  · have hfg := muldiv255_bounds c a hc ha
    have hP : c * a ≤ 255 * a := Nat.mul_le_mul hc (le_refl a)
    rw [Nat.mul_comm a c]
    rcases hfg with ⟨hfg1, hfg2⟩
    generalize hm : muldiv255 c a = md at hfg1 hfg2 ⊢
    generalize hp : c * a = P at hfg1 hfg2 hP ⊢
    omega

/-- C4 counterexample: a 1x1 `LA` image whose single pixel is black and
fully transparent (luminance 0, alpha 0). The claim requires every fully
transparent pixel of the normalized output to be pure white, but the code
pastes `LA` images *without* the alpha mask, so the output pixel keeps the
luminance and comes out black. -/
theorem normalize_la_transparent_not_white_cex :
    (processDecoded (DecodedImage.la 1 1 (fun _ _ => (0, 0)))).px 0 0 = RGBColor.mk 0 0 0 ∧
    ((processDecoded (DecodedImage.la 1 1 (fun _ _ => (0, 0)))).px 0 0
        = RGBColor.mk 255 255 255) = False := by
  refine ⟨rfl, eq_false ?_⟩
  intro h
  have h0 : (RGBColor.mk 0 0 0 : RGBColor) = RGBColor.mk 255 255 255 := h
  simp at h0

/-- C4 amended: alpha-weighted compositing onto the opaque white canvas
holds for `RGBA` inputs — fully transparent pixels become pure white,
fully opaque pixels keep their color, and partial alpha yields the
fixed-point linear blend toward white (each channel lies between the
source value and 255, within rounding slack 128/255 of the exact linear
blend `((255-a)*255 + a*c)/255`). `LA` inputs, however, are pasted
without the alpha mask: the output replicates the luminance on all three
channels and ignores alpha entirely. The canvas dimensions are those of
the source image. -/
theorem normalize_alpha_flatten (w h : ℕ) (pxA : ℕ → ℕ → RGBColor × ℕ)
    (pxL : ℕ → ℕ → ℕ × ℕ) (x y : ℕ)
    (hr : (pxA x y).1.r ≤ 255) (hg : (pxA x y).1.g ≤ 255)
    (hb : (pxA x y).1.b ≤ 255) (ha : (pxA x y).2 ≤ 255) :
    ((processDecoded (DecodedImage.rgba w h pxA)).width = w ∧
      (processDecoded (DecodedImage.rgba w h pxA)).height = h) ∧
    ((pxA x y).2 = 0 →
      (processDecoded (DecodedImage.rgba w h pxA)).px x y = RGBColor.mk 255 255 255) ∧
    ((pxA x y).2 = 255 →
      (processDecoded (DecodedImage.rgba w h pxA)).px x y = (pxA x y).1) ∧
    ((pxA x y).1.r ≤ ((processDecoded (DecodedImage.rgba w h pxA)).px x y).r ∧
      ((processDecoded (DecodedImage.rgba w h pxA)).px x y).r ≤ 255 ∧
      (255 - (pxA x y).2) * 255 + (pxA x y).2 * (pxA x y).1.r
          ≤ 255 * ((processDecoded (DecodedImage.rgba w h pxA)).px x y).r + 128 ∧
      255 * ((processDecoded (DecodedImage.rgba w h pxA)).px x y).r
          ≤ (255 - (pxA x y).2) * 255 + (pxA x y).2 * (pxA x y).1.r + 128) ∧
    (processDecoded (DecodedImage.la w h pxL)).px x y
        = RGBColor.mk (pxL x y).1 (pxL x y).1 (pxL x y).1 := by
  have hpx : (processDecoded (DecodedImage.rgba w h pxA)).px x y
      = pasteOnWhite (pxA x y) := rfl
  have hwr := pilBlend_white (pxA x y).1.r (pxA x y).2 hr ha
  have hwg := pilBlend_white (pxA x y).1.g (pxA x y).2 hg ha
  have hwb := pilBlend_white (pxA x y).1.b (pxA x y).2 hb ha
  refine ⟨⟨rfl, rfl⟩, ?_, ?_, ?_, rfl⟩
  · intro h0
    rw [hpx, pasteOnWhite, hwr.1 h0, hwg.1 h0, hwb.1 h0]
  · intro h255
    rw [hpx, pasteOnWhite, hwr.2.1 h255, hwg.2.1 h255, hwb.2.1 h255]
  · rw [hpx, pasteOnWhite]
    exact ⟨hwr.2.2.1.1, hwr.2.2.1.2, hwr.2.2.2.1, hwr.2.2.2.2⟩

/-- C4 amended witness: a fully transparent red RGBA pixel normalizes to
pure white, and a fully transparent LA pixel of luminance 7 normalizes to
gray 7 (alpha ignored). -/
theorem normalize_alpha_flatten_witness :
    (processDecoded (DecodedImage.rgba 1 1 (fun _ _ => (RGBColor.mk 200 10 30, 0)))).px 0 0
        = RGBColor.mk 255 255 255 ∧
    (processDecoded (DecodedImage.la 1 1 (fun _ _ => (7, 0)))).px 0 0 = RGBColor.mk 7 7 7 := by
  have h := normalize_alpha_flatten 1 1 (fun _ _ => (RGBColor.mk 200 10 30, 0))
    (fun _ _ => (7, 0)) 0 0 (by norm_num) (by norm_num) (by norm_num) (by norm_num)
  exact ⟨h.2.1 rfl, h.2.2.2.2⟩

/-- C5: normalization is idempotent on inputs that decode as plain RGB:
given that the (external, deterministic) PNG codec round-trips RGB images
losslessly, running `_process_image_for_openai` on its own output
reproduces that output byte for byte. -/
theorem normalize_idempotent_on_rgb {Bytes : Type} (codec : PngCodec Bytes)
    (hrt : ∀ img : RGBImage, codec.decode (codec.encodePNG img) = some (DecodedImage.rgb img))
    (data : Bytes) (img : RGBImage)
    (hdec : codec.decode data = some (DecodedImage.rgb img)) :
    ∃ out : Bytes, process_image_for_openai codec data = Except.ok out ∧
      process_image_for_openai codec out = Except.ok out := by
  refine ⟨codec.encodePNG img, ?_, ?_⟩
  · rw [process_image_for_openai, hdec]
    rfl
  · rw [process_image_for_openai, hrt img]
    rfl

/-- C5 witness: the identity-style codec on `RGBImage` itself, applied to
a concrete 1x1 image: the normalizer is a fixed point on it. -/
theorem normalize_idempotent_on_rgb_witness :
    process_image_for_openai
        (PngCodec.mk (fun i => some (DecodedImage.rgb i)) (fun i => i))
        (RGBImage.mk 1 1 (fun _ _ => RGBColor.mk 1 2 3))
      = Except.ok (RGBImage.mk 1 1 (fun _ _ => RGBColor.mk 1 2 3)) := by
  obtain ⟨out, h1, h2⟩ := normalize_idempotent_on_rgb
    (PngCodec.mk (fun i => some (DecodedImage.rgb i)) (fun i => i))
    (fun _ => rfl)
    (RGBImage.mk 1 1 (fun _ _ => RGBColor.mk 1 2 3))
    (RGBImage.mk 1 1 (fun _ _ => RGBColor.mk 1 2 3))
    rfl
  have hcomp : process_image_for_openai
      (PngCodec.mk (fun i => some (DecodedImage.rgb i)) (fun i => i))
      (RGBImage.mk 1 1 (fun _ _ => RGBColor.mk 1 2 3))
      = Except.ok (RGBImage.mk 1 1 (fun _ _ => RGBColor.mk 1 2 3)) := rfl
  injection h1.symm.trans hcomp

/-- C8: both service entry points are total functions into outcome values
(no exception escapes — the type of the embedding), and whenever the
`try` body raises (`Except.error`), the returned outcome has
`success = false` and its `error` field is exactly the exception's text. -/
theorem provider_errors_become_outcomes (env : PyEnv) (greq : GenRequest)
    (rreq : RefRequest) (fs : FSState) (e1 e2 : String) :
    ((genBody env greq fs).1 = Except.error e1 →
      (generate_image env greq fs).1.success = false ∧
      (generate_image env greq fs).1.error = some e1) ∧
    ((refGenBody env rreq fs).1 = Except.error e2 →
      (generate_with_reference_urls env rreq fs).1.success = false ∧
      (generate_with_reference_urls env rreq fs).1.error = some e2) := by
  constructor
  · intro h
    unfold generate_image
    rcases hg : genBody env greq fs with ⟨b, fs'⟩
    rw [hg] at h
    simp only at h
    subst h
    exact ⟨rfl, rfl⟩
  · intro h
    unfold generate_with_reference_urls
    rcases hg : refGenBody env rreq fs with ⟨b, fs'⟩
    rw [hg] at h
    simp only at h
    subst h
    exact ⟨rfl, rfl⟩

/-- C8 witness: an environment whose generate call raises "boom" and whose
reference fetch raises "neterr"; both outcomes are failures carrying
exactly those texts. -/
theorem provider_errors_become_outcomes_witness :
    (generate_image
        (PyEnv.mk true
          (PngCodec.mk (fun _ => none) (fun _ => []))
          (fun _ => Except.error "neterr")
          (fun _ => Except.error "boom")
          (fun _ _ _ _ _ => Except.error "unused")
          (fun _ => "b64") "20250101_000000")
        (GenRequest.mk "a cat" "dall-e-3" "1024x1024" "standard" 1 "png" false)
        (FSState.mk [])).1.success = false ∧
    (generate_image
        (PyEnv.mk true
          (PngCodec.mk (fun _ => none) (fun _ => []))
          (fun _ => Except.error "neterr")
          (fun _ => Except.error "boom")
          (fun _ _ _ _ _ => Except.error "unused")
          (fun _ => "b64") "20250101_000000")
        (GenRequest.mk "a cat" "dall-e-3" "1024x1024" "standard" 1 "png" false)
        (FSState.mk [])).1.error = some "boom" ∧
    (generate_with_reference_urls
        (PyEnv.mk true
          (PngCodec.mk (fun _ => none) (fun _ => []))
          (fun _ => Except.error "neterr")
          (fun _ => Except.error "boom")
          (fun _ _ _ _ _ => Except.error "unused")
          (fun _ => "b64") "20250101_000000")
        (RefRequest.mk "a cat" ["http://r/1.png"] "gpt-image-1" "1536x1024" "high" 1 "png" true)
        (FSState.mk [])).1.success = false ∧
    (generate_with_reference_urls
        (PyEnv.mk true
          (PngCodec.mk (fun _ => none) (fun _ => []))
          (fun _ => Except.error "neterr")
          (fun _ => Except.error "boom")
          (fun _ _ _ _ _ => Except.error "unused")
          (fun _ => "b64") "20250101_000000")
        (RefRequest.mk "a cat" ["http://r/1.png"] "gpt-image-1" "1536x1024" "high" 1 "png" true)
        (FSState.mk [])).1.error = some "neterr" := by
  have h := provider_errors_become_outcomes
    (PyEnv.mk true
      (PngCodec.mk (fun _ => none) (fun _ => []))
      (fun _ => Except.error "neterr")
      (fun _ => Except.error "boom")
      (fun _ _ _ _ _ => Except.error "unused")
      (fun _ => "b64") "20250101_000000")
    (GenRequest.mk "a cat" "dall-e-3" "1024x1024" "standard" 1 "png" false)
    (RefRequest.mk "a cat" ["http://r/1.png"] "gpt-image-1" "1536x1024" "high" 1 "png" true)
    (FSState.mk []) "boom" "neterr"
  exact ⟨(h.1 rfl).1, (h.1 rfl).2, (h.2 rfl).1, (h.2 rfl).2⟩

/-- C6 counterexample: with two reference URLs whose *second* fetch fails,
the call does not return a failure outcome — it succeeds with one image,
because `generate_with_reference_urls` only ever downloads
`request.image_urls[0]`; the second URL is never fetched. -/
theorem ref_second_url_failure_cex :
    refCexEnv.fetchUrl "http://refs/2.png" = Except.error "FetchError: could not fetch" ∧
    (generate_with_reference_urls refCexEnv refCexReq (FSState.mk [])).1.success = true ∧
    (generate_with_reference_urls refCexEnv refCexReq (FSState.mk [])).1.images.length = 1 :=
  ⟨rfl, rfl, rfl⟩

/-- C6 amended: only the first of the reference URLs is ever fetched; if
fetching the *first* URL fails, the whole call returns a single failure
outcome carrying the fetch error and no images (never a partial success);
a fetch failure of the second URL cannot occur, as the remaining URLs only
enter the enhanced prompt's reference count. -/
theorem first_reference_fetch_failure_aborts (env : PyEnv) (req : RefRequest)
    (fs : FSState) (e : String) (hclient : env.hasClient = true)
    (hurls : req.imageUrls.isEmpty = false)
    (hfetch : env.fetchUrl req.imageUrls.headI = Except.error e) :
    (generate_with_reference_urls env req fs).1.success = false ∧
    (generate_with_reference_urls env req fs).1.error = some e ∧
    (generate_with_reference_urls env req fs).1.images = [] := by
  unfold generate_with_reference_urls refGenBody download_image_from_url
  rw [hclient, hurls, hfetch]
  simp only [Bool.not_true]
  exact ⟨rfl, rfl, rfl⟩

/-- C6 amended witness: a concrete run whose first fetch fails. -/
theorem first_reference_fetch_failure_aborts_witness :
    (generate_with_reference_urls
        (PyEnv.mk true (PngCodec.mk (fun _ => none) (fun _ => []))
          (fun _ => Except.error "FetchError: 404")
          (fun _ => Except.error "unused")
          (fun _ _ _ _ _ => Except.error "unused")
          (fun _ => "b64") "20250101_000000")
        (RefRequest.mk "p" ["http://refs/1.png", "http://refs/2.png"]
          "gpt-image-1" "1024x1024" "high" 1 "png" true)
        (FSState.mk [])).1.success = false ∧
    (generate_with_reference_urls
        (PyEnv.mk true (PngCodec.mk (fun _ => none) (fun _ => []))
          (fun _ => Except.error "FetchError: 404")
          (fun _ => Except.error "unused")
          (fun _ _ _ _ _ => Except.error "unused")
          (fun _ => "b64") "20250101_000000")
        (RefRequest.mk "p" ["http://refs/1.png", "http://refs/2.png"]
          "gpt-image-1" "1024x1024" "high" 1 "png" true)
        (FSState.mk [])).1.error = some "FetchError: 404" ∧
    (generate_with_reference_urls
        (PyEnv.mk true (PngCodec.mk (fun _ => none) (fun _ => []))
          (fun _ => Except.error "FetchError: 404")
          (fun _ => Except.error "unused")
          (fun _ _ _ _ _ => Except.error "unused")
          (fun _ => "b64") "20250101_000000")
        (RefRequest.mk "p" ["http://refs/1.png", "http://refs/2.png"]
          "gpt-image-1" "1024x1024" "high" 1 "png" true)
        (FSState.mk [])).1.images = [] :=
  first_reference_fetch_failure_aborts
    (PyEnv.mk true (PngCodec.mk (fun _ => none) (fun _ => []))
      (fun _ => Except.error "FetchError: 404")
      (fun _ => Except.error "unused")
      (fun _ _ _ _ _ => Except.error "unused")
      (fun _ => "b64") "20250101_000000")
    (RefRequest.mk "p" ["http://refs/1.png", "http://refs/2.png"]
      "gpt-image-1" "1024x1024" "high" 1 "png" true)
    (FSState.mk []) "FetchError: 404" rfl rfl rfl

/-- When every truthy URL fetch succeeds, one iteration's decision never
raises, agrees with the spec-side description, and admits the item iff it
carries a truthy url or truthy inline data. -/
lemma itemDataStep_spec (env : PyEnv) (item : ProviderItem)
    (hf : ∀ u, item.url = some u → u.isEmpty = false →
      ∃ bytes, env.fetchUrl u = Except.ok bytes) :
    ∃ ob : Option String, itemDataStep env item = Except.ok ob ∧
      (∀ i : ℕ, unifySpecItem env (i, item) = ob.map (fun b => (i, b))) ∧
      (ob.isSome = (strTruthy item.url || strTruthy item.b64Json)) := by
  rcases hu : item.url with _ | u
  · rcases hb : item.b64Json with _ | b
    · exact ⟨none, by simp [itemDataStep, hu, hb], fun i => by simp [unifySpecItem, hu, hb],
        by simp [strTruthy, hu, hb]⟩
    · by_cases hbe : b.isEmpty
      · exact ⟨none, by simp [itemDataStep, hu, hb, hbe],
          fun i => by simp [unifySpecItem, hu, hb, hbe],
          by simp [strTruthy, hu, hb, hbe]⟩
      · exact ⟨some b, by simp [itemDataStep, hu, hb, hbe],
          fun i => by simp [unifySpecItem, hu, hb, hbe],
          by simp [strTruthy, hu, hb, hbe]⟩
  · by_cases hue : u.isEmpty
    · rcases hb : item.b64Json with _ | b
      · exact ⟨none, by simp [itemDataStep, hu, hue, hb],
          fun i => by simp [unifySpecItem, hu, hue, hb],
          by simp [strTruthy, hu, hue, hb]⟩
      · by_cases hbe : b.isEmpty
        · exact ⟨none, by simp [itemDataStep, hu, hue, hb, hbe],
            fun i => by simp [unifySpecItem, hu, hue, hb, hbe],
            by simp [strTruthy, hu, hue, hb, hbe]⟩
        · exact ⟨some b, by simp [itemDataStep, hu, hue, hb, hbe],
            fun i => by simp [unifySpecItem, hu, hue, hb, hbe],
            by simp [strTruthy, hu, hue, hb, hbe]⟩
    · obtain ⟨bytes, hbytes⟩ := hf u hu (by simpa using hue)
      exact ⟨some (env.b64encode bytes), by simp [itemDataStep, hu, hue, hbytes],
        fun i => by simp [unifySpecItem, hu, hue, hbytes],
        by simp [strTruthy, hu, hue]⟩

/-- C7: when every item carrying a truthy URL fetches successfully, the
unification loop returns (without failing) exactly the items carrying a
truthy URL (fetched and re-encoded to base64) or truthy inline data (used
directly), skipping items with neither: the projected output equals the
spec-side `filterMap`, and its length counts the items carrying at least
one of the two. -/
theorem ref_response_unification (env : PyEnv) (req : RefRequest)
    (items : List ProviderItem) (idx : ℕ) (fs : FSState)
    (hfetch : ∀ it ∈ items, ∀ u, it.url = some u → u.isEmpty = false →
      ∃ bytes, env.fetchUrl u = Except.ok bytes) :
    ∃ l fs', refResponseLoop env req items idx fs = (Except.ok l, fs') ∧
      l.map (fun info => (info.index, info.b64Json))
        = (items.enumFrom idx).filterMap (unifySpecItem env) ∧
      l.length = items.countP (fun it => strTruthy it.url || strTruthy it.b64Json) := by
  induction items generalizing idx fs with
  | nil => exact ⟨[], fs, rfl, rfl, rfl⟩
  | cons item rest ih =>
    obtain ⟨ob, hob, hspec, hsome⟩ :=
      itemDataStep_spec env item (hfetch item (List.mem_cons_self item rest))
    have hrest : ∀ it ∈ rest, ∀ u, it.url = some u → u.isEmpty = false →
        ∃ bytes, env.fetchUrl u = Except.ok bytes :=
      fun it hit => hfetch it (List.mem_cons_of_mem item hit)
    rcases ob with _ | b
    · obtain ⟨l, fs', hloop, hmap, hlen⟩ := ih (idx + 1) fs hrest
      refine ⟨l, fs', ?_, ?_, ?_⟩
      · rw [refResponseLoop, hob]
        exact hloop
      · rw [List.enumFrom_cons, List.filterMap_cons_none (by simpa using hspec idx)]
        exact hmap
      · rw [List.countP_cons]
        have : (strTruthy item.url || strTruthy item.b64Json) = false := by
          simpa using hsome.symm
        rw [this]
        simpa using hlen
    · by_cases hsd : req.saveToDisk
      · obtain ⟨l, fs', hloop, hmap, hlen⟩ := ih (idx + 1)
          ((save_image_to_disk ("reference_" ++ env.now ++ "_" ++ toString idx)
            req.responseFormat fs).2) hrest
        refine ⟨ImageInfo.mk idx b none
            (some ("reference_" ++ env.now ++ "_" ++ toString idx ++ "." ++ req.responseFormat))
            (some (GENERATED_IMAGES_DIR ++ "/"
              ++ ("reference_" ++ env.now ++ "_" ++ toString idx ++ "." ++ req.responseFormat)))
            :: l, fs', ?_, ?_, ?_⟩
        · rw [refResponseLoop, hob]
          simp only [hsd, if_true, save_image_to_disk]
          simp only [save_image_to_disk] at hloop
          rw [hloop]
        · rw [List.enumFrom_cons,
            List.filterMap_cons_some (by simpa using hspec idx)]
          simpa using hmap
        · rw [List.countP_cons]
          have : (strTruthy item.url || strTruthy item.b64Json) = true := by
            simpa using hsome.symm
          rw [this]
          simpa using hlen
      · obtain ⟨l, fs', hloop, hmap, hlen⟩ := ih (idx + 1) fs hrest
        refine ⟨ImageInfo.mk idx b none none none :: l, fs', ?_, ?_, ?_⟩
        · rw [refResponseLoop, hob]
          simp only [hsd, Bool.false_eq_true, if_false]
          rw [hloop]
        · rw [List.enumFrom_cons,
            List.filterMap_cons_some (by simpa using hspec idx)]
          simpa using hmap
        · rw [List.countP_cons]
          have : (strTruthy item.url || strTruthy item.b64Json) = true := by
            simpa using hsome.symm
          rw [this]
          simpa using hlen

/-- C7 witness: three items — one with a URL (fetched, re-encoded as
"ENC"), one with inline data "QUJD", one with neither (dropped) — unify
to two results, matching the spec-side filterMap and the carrier count. -/
theorem ref_response_unification_witness :
    ([ImageInfo.mk 0 "ENC" none none none, ImageInfo.mk 1 "QUJD" none none none].map
        (fun info => (info.index, info.b64Json))
      = ([ProviderItem.mk (some "http://img/1.png") none,
          ProviderItem.mk none (some "QUJD"),
          ProviderItem.mk none none].enumFrom 0).filterMap
        (unifySpecItem
          (PyEnv.mk true (PngCodec.mk (fun _ => none) (fun _ => []))
            (fun _ => Except.ok [7])
            (fun _ => Except.error "unused")
            (fun _ _ _ _ _ => Except.error "unused")
            (fun _ => "ENC") "20250101_000000"))) ∧
    ([ImageInfo.mk 0 "ENC" none none none, ImageInfo.mk 1 "QUJD" none none none].length
      = [ProviderItem.mk (some "http://img/1.png") none,
          ProviderItem.mk none (some "QUJD"),
          ProviderItem.mk none none].countP
        (fun it => strTruthy it.url || strTruthy it.b64Json)) := by
  obtain ⟨l, fs', h1, h2, h3⟩ := ref_response_unification
    (PyEnv.mk true (PngCodec.mk (fun _ => none) (fun _ => []))
      (fun _ => Except.ok [7])
      (fun _ => Except.error "unused")
      (fun _ _ _ _ _ => Except.error "unused")
      (fun _ => "ENC") "20250101_000000")
    (RefRequest.mk "p" ["u"] "gpt-image-1" "1024x1024" "high" 1 "png" false)
    [ProviderItem.mk (some "http://img/1.png") none,
      ProviderItem.mk none (some "QUJD"),
      ProviderItem.mk none none] 0 (FSState.mk [])
    (fun _ _ _ _ _ => ⟨[7], rfl⟩)
  have hcomp : refResponseLoop
      (PyEnv.mk true (PngCodec.mk (fun _ => none) (fun _ => []))
        (fun _ => Except.ok [7])
        (fun _ => Except.error "unused")
        (fun _ _ _ _ _ => Except.error "unused")
        (fun _ => "ENC") "20250101_000000")
      (RefRequest.mk "p" ["u"] "gpt-image-1" "1024x1024" "high" 1 "png" false)
      [ProviderItem.mk (some "http://img/1.png") none,
        ProviderItem.mk none (some "QUJD"),
        ProviderItem.mk none none] 0 (FSState.mk [])
      = (Except.ok [ImageInfo.mk 0 "ENC" none none none,
          ImageInfo.mk 1 "QUJD" none none none], FSState.mk []) := rfl
  rw [hcomp] at h1
  have hl : l = [ImageInfo.mk 0 "ENC" none none none,
      ImageInfo.mk 1 "QUJD" none none none] := by
    have hfst := congrArg Prod.fst h1
    simp only at hfst
    injection hfst.symm
  subst hl
  exact ⟨h2, h3⟩

/-- The final filesystem of the full call is that of the `try` body: the
`except` handler only replaces the outcome value. -/
lemma generate_with_reference_urls_snd (env : PyEnv) (req : RefRequest) (fs : FSState) :
    (generate_with_reference_urls env req fs).2 = (refGenBody env req fs).2 := by
  unfold generate_with_reference_urls
  rcases h : refGenBody env req fs with ⟨b, fs'⟩
  rcases b with e | o <;> rfl

/-- The final filesystem of the unification tail is that of the loop. -/
lemma refUnifyAndRespond_snd (env : PyEnv) (req : RefRequest) (items : List ProviderItem)
    (fs : FSState) :
    (refUnifyAndRespond env req items fs).2 = (refResponseLoop env req items 0 fs).2 := by
  unfold refUnifyAndRespond
  rcases h : refResponseLoop env req items 0 fs with ⟨res, fs2⟩
  rcases res with e | l <;> rfl

/-- Lists sharing a prefix but differing right after it are unequal. -/
lemma ne_append_cons {α : Type} (pre : List α) (x y : α) (u v : List α)
    (hxy : x ≠ y) : pre ++ x :: u ≠ pre ++ y :: v := by
  intro h
  have h2 : x :: u = y :: v := List.append_cancel_left h
  rw [List.cons.injEq] at h2
  exact hxy h2.1

/-- The transient `temp_ref_<now>.png` path never collides with a
persisted `reference_<now>_<idx>.<fmt>` path. -/
lemma temp_ne_savePath (now fmt : String) (i : ℕ) :
    pathJoin GENERATED_IMAGES_DIR ("temp_ref_" ++ now ++ ".png")
      ≠ pathJoin GENERATED_IMAGES_DIR
          ("reference_" ++ now ++ "_" ++ toString i ++ "." ++ fmt) := by
  intro h
  have hd := congrArg String.data h
  have hL : (pathJoin GENERATED_IMAGES_DIR ("temp_ref_" ++ now ++ ".png")).data
      = "generated-images/".data
        ++ ('t' :: ("emp_ref_".data ++ (now.data ++ ".png".data))) := by
    simp only [pathJoin, GENERATED_IMAGES_DIR, String.data_append, List.append_assoc]
    rfl
  have hR : (pathJoin GENERATED_IMAGES_DIR
        ("reference_" ++ now ++ "_" ++ toString i ++ "." ++ fmt)).data
      = "generated-images/".data
        ++ ('r' :: ("eference_".data
            ++ (now.data ++ ("_".data ++ ((toString i).data ++ (".".data ++ fmt.data)))))) := by
    simp only [pathJoin, GENERATED_IMAGES_DIR, String.data_append, List.append_assoc]
    rfl
  rw [hL, hR] at hd
  exact ne_append_cons _ 't' 'r' _ _ (by decide) hd

/-- Removing a path removes it. -/
lemma not_mem_remove_self (fs : FSState) (p : String) : p ∉ (fs.remove p).files := by
  simp [FSState.remove, List.mem_filter]

/-- The unification loop only ever creates `reference_<now>_<idx>.<fmt>`
paths: a path that is absent and is none of those stays absent, on both
the success and the mid-loop-failure exit. -/
lemma refResponseLoop_preserves_absent (env : PyEnv) (req : RefRequest) :
    ∀ (items : List ProviderItem) (idx : ℕ) (fs : FSState) (p : String),
      p ∉ fs.files →
      (∀ i : ℕ, p ≠ pathJoin GENERATED_IMAGES_DIR
        ("reference_" ++ env.now ++ "_" ++ toString i ++ "." ++ req.responseFormat)) →
      p ∉ ((refResponseLoop env req items idx fs).2).files := by
  intro items
  induction items with
  | nil => intro idx fs p hp _; exact hp
  | cons item rest ih =>
    intro idx fs p hp hsave
    rcases hstep : itemDataStep env item with e | ob
    · rw [refResponseLoop, hstep]
      exact hp
    · rcases ob with _ | b
      · rw [refResponseLoop, hstep]
        exact ih (idx + 1) fs p hp hsave
      · by_cases hsd : req.saveToDisk
        · have hp1 : p ∉ ((fs.write (pathJoin GENERATED_IMAGES_DIR
              ("reference_" ++ env.now ++ "_" ++ toString idx ++ "."
                ++ req.responseFormat))).files) := by
            rw [FSState.write]
            intro hmem
            rcases List.mem_cons.mp hmem with heq | hmem'
            · exact hsave idx heq
            · exact hp hmem'
          have hrec := ih (idx + 1)
            (fs.write (pathJoin GENERATED_IMAGES_DIR
              ("reference_" ++ env.now ++ "_" ++ toString idx ++ "."
                ++ req.responseFormat))) p hp1 hsave
          rw [refResponseLoop, hstep]
          simp only [hsd, if_true, save_image_to_disk]
          rcases hrun : refResponseLoop env req rest (idx + 1)
            (fs.write (pathJoin GENERATED_IMAGES_DIR
              ("reference_" ++ env.now ++ "_" ++ toString idx ++ "."
                ++ req.responseFormat))) with ⟨res, fs2⟩
          rw [hrun] at hrec
          rcases res with e | l
          · exact hrec
          · exact hrec
        · have hrec := ih (idx + 1) fs p hp hsave
          rw [refResponseLoop, hstep]
          simp only [hsd, Bool.false_eq_true, if_false]
          rcases hrun : refResponseLoop env req rest (idx + 1) fs with ⟨res, fs2⟩
          rw [hrun] at hrec
          rcases res with e | l
          · exact hrec
          · exact hrec

/-- C9: whenever a reference-generation call gets as far as writing the
processed reference image to the temp file (the first URL downloaded and
decoded), the temp file is absent from the filesystem when the call
returns — on the success path, on a mid-unification fetch failure, and on
the path where the provider edit submission itself raises (the
`try/finally` around `images.edit`). -/
theorem temp_file_deleted (env : PyEnv) (req : RefRequest) (fs : FSState)
    (hclient : env.hasClient = true) (hurls : req.imageUrls.isEmpty = false)
    (hdl : ∃ rp, download_image_from_url env req.imageUrls.headI = Except.ok rp) :
    tempPath env ∉ ((generate_with_reference_urls env req fs).2).files := by
  obtain ⟨rp, hrp⟩ := hdl
  rw [generate_with_reference_urls_snd]
  unfold refGenBody
  rw [hclient, hurls, hrp]
  simp only [Bool.not_true, Bool.false_eq_true, if_false]
  rcases hedit : env.imagesEdit req.model
      (create_enhanced_prompt req.prompt req.imageUrls.length)
      req.size req.n rp.2 with e | items
  · exact not_mem_remove_self _ _
  · have hstart : tempPath env ∉ ((fs.write (tempPath env)).remove (tempPath env)).files :=
      not_mem_remove_self _ _
    have habs := refResponseLoop_preserves_absent env req items 0
      ((fs.write (tempPath env)).remove (tempPath env)) (tempPath env) hstart
      (fun i => temp_ne_savePath env.now req.responseFormat i)
    have hfin : tempPath env ∉ ((refUnifyAndRespond env req items
        ((fs.write (tempPath env)).remove (tempPath env))).2).files := by
      rw [refUnifyAndRespond_snd]
      exact habs
    exact hfin

/-- C9 witness: a successful concrete call (fetch ok, decode ok, edit
returns one inline item, persistence on) leaves no temp file behind: it
occurs zero times in the final filesystem. -/
theorem temp_file_deleted_witness :
    List.count
      (tempPath
        (PyEnv.mk true
          (PngCodec.mk
            (fun _ => some (DecodedImage.rgb (RGBImage.mk 1 1 (fun _ _ => RGBColor.mk 0 0 0))))
            (fun _ => []))
          (fun _ => Except.ok [1])
          (fun _ => Except.error "unused")
          (fun _ _ _ _ _ => Except.ok [ProviderItem.mk none (some "QUJD")])
          (fun _ => "QUJD") "20250101_000000"))
      ((generate_with_reference_urls
          (PyEnv.mk true
            (PngCodec.mk
              (fun _ => some (DecodedImage.rgb (RGBImage.mk 1 1 (fun _ _ => RGBColor.mk 0 0 0))))
              (fun _ => []))
            (fun _ => Except.ok [1])
            (fun _ => Except.error "unused")
            (fun _ _ _ _ _ => Except.ok [ProviderItem.mk none (some "QUJD")])
            (fun _ => "QUJD") "20250101_000000")
          (RefRequest.mk "p" ["http://refs/1.png"] "gpt-image-1" "1024x1024" "high" 1 "png" true)
          (FSState.mk [])).2).files = 0 :=
  List.count_eq_zero.mpr
    (temp_file_deleted
      (PyEnv.mk true
        (PngCodec.mk
          (fun _ => some (DecodedImage.rgb (RGBImage.mk 1 1 (fun _ _ => RGBColor.mk 0 0 0))))
          (fun _ => []))
        (fun _ => Except.ok [1])
        (fun _ => Except.error "unused")
        (fun _ _ _ _ _ => Except.ok [ProviderItem.mk none (some "QUJD")])
        (fun _ => "QUJD") "20250101_000000")
      (RefRequest.mk "p" ["http://refs/1.png"] "gpt-image-1" "1024x1024" "high" 1 "png" true)
      (FSState.mk []) rfl rfl ⟨([1], []), rfl⟩)
